import Mathlib

/-
  Shallow embedding of vnd/capstone-rs, a safe access layer over the
  Capstone disassembly engine.

  The foreign engine (libcapstone) is modelled as an abstract oracle:
  a step function that decodes one instruction from a byte cursor, plus
  the per-handle last-error slot.  All wrapper-layer logic (src/handle.rs,
  src/capstone.rs, src/instruction.rs, src/ffi.rs) is translated directly.

  Machine integers are modelled as Nat with explicit `% 2^w` where a
  reinterpretation occurs.  Rust panics (out-of-range slicing) are
  modelled as `none`; fallible calls return Except/Option exactly as in
  the source.  FFI calls that release or acquire resources are modelled
  as events in a trace, so that exactly-once release properties become
  statements about event counts.
-/

/-- Capstone error codes, from src/error.rs (enum CsError, repr C). -/
inductive CsErr where
  | CS_ERR_OK
  | CS_ERR_MEM
  | CS_ERR_ARCH
  | CS_ERR_HANDLE
  | CS_ERR_CSH
  | CS_ERR_MODE
  | CS_ERR_OPTION
  | CS_ERR_DETAIL
  | CS_ERR_MEMSETUP
  | CS_ERR_VERSION
  | CS_ERR_DIET
  | CS_ERR_SKIPDATA
  | CS_ERR_X86_ATT
  | CS_ERR_X86_INTEL
  deriving DecidableEq

/-- Architecture-independent instruction detail, from src/ffi.rs
    (struct InsnDetail).  Fixed-size arrays are lists whose length the
    theorems constrain explicitly; group ids are their numeric values. -/
structure InsnDetail where
  regs_read : List Nat
  regs_read_count : Nat
  regs_write : List Nat
  regs_write_count : Nat
  groupsArr : List Nat
  groups_count : Nat
  arch_data : List Nat
  deriving DecidableEq

/-- A disassembled instruction record, from src/ffi.rs (struct Insn).
    `mnemonicBuf` and `opStrBuf` are the raw fixed-capacity byte buffers;
    `detail_ptr` models the nullable `*mut InsnDetail` (none = null). -/
structure Insn where
  id : Nat
  address : Nat
  size : Nat
  bytes : List Nat
  mnemonicBuf : List Nat
  opStrBuf : List Nat
  detail_ptr : Option InsnDetail
  deriving DecidableEq

/-- Rust slice expression `&arr[0..hi]`: returns the first `hi` elements,
    or `none` (a panic) when `hi` exceeds the backing length. -/
def rustSliceTo {α : Type} (l : List α) (hi : Nat) : Option (List α) :=
  if hi ≤ l.length then some (l.take hi) else none

/-- InsnDetail::groups (src/ffi.rs): `&self.groups[0..self.groups_count]`. -/
def InsnDetail.groups (d : InsnDetail) : Option (List Nat) :=
  rustSliceTo d.groupsArr d.groups_count

/-- Insn::detail (src/ffi.rs): returns None when the detail pointer is
    null or the instruction id is 0 (skipdata pseudo-instruction). -/
def Insn.detail (i : Insn) : Option InsnDetail :=
  if i.detail_ptr.isNone || i.id == 0 then none else i.detail_ptr

/-- C-string contents of a fixed buffer: the bytes before the first NUL,
    as read by CStr::from_ptr on the buffer's base pointer. -/
def cstrBytes (l : List Nat) : List Nat :=
  l.takeWhile (fun b => b ≠ 0)

/-- Whether a byte is a UTF-8 continuation byte (0x80..0xBF). -/
def utf8Cont (b : Nat) : Bool :=
  0x80 ≤ b && b ≤ 0xBF

/-- Fuelled UTF-8 validity check implementing the encoding accepted by
    Rust str::from_utf8: ASCII, 2-byte C2..DF, 3-byte E0/E1..EC/ED/EE..EF
    (excluding surrogates), 4-byte F0/F1..F3/F4 (up to U+10FFFF). -/
def utf8ValidFuel : Nat → List Nat → Bool
  | 0, l => l.isEmpty
  | _ + 1, [] => true
  | fuel + 1, b :: r =>
    if b ≤ 0x7F then utf8ValidFuel fuel r
    else if 0xC2 ≤ b && b ≤ 0xDF then
      match r with
      | c1 :: r2 => utf8Cont c1 && utf8ValidFuel fuel r2
      | [] => false
    else if b = 0xE0 then
      match r with
      | c1 :: c2 :: r2 =>
        (0xA0 ≤ c1 && c1 ≤ 0xBF) && utf8Cont c2 && utf8ValidFuel fuel r2
      | _ => false
    else if (0xE1 ≤ b && b ≤ 0xEC) || b = 0xEE || b = 0xEF then
      match r with
      | c1 :: c2 :: r2 => utf8Cont c1 && utf8Cont c2 && utf8ValidFuel fuel r2
      | _ => false
    else if b = 0xED then
      match r with
      | c1 :: c2 :: r2 =>
        (0x80 ≤ c1 && c1 ≤ 0x9F) && utf8Cont c2 && utf8ValidFuel fuel r2
      | _ => false
    else if b = 0xF0 then
      match r with
      | c1 :: c2 :: c3 :: r2 =>
        (0x90 ≤ c1 && c1 ≤ 0xBF) && utf8Cont c2 && utf8Cont c3 &&
          utf8ValidFuel fuel r2
      | _ => false
    else if 0xF1 ≤ b && b ≤ 0xF3 then
      match r with
      | c1 :: c2 :: c3 :: r2 =>
        utf8Cont c1 && utf8Cont c2 && utf8Cont c3 && utf8ValidFuel fuel r2
      | _ => false
    else if b = 0xF4 then
      match r with
      | c1 :: c2 :: c3 :: r2 =>
        (0x80 ≤ c1 && c1 ≤ 0x8F) && utf8Cont c2 && utf8Cont c3 &&
          utf8ValidFuel fuel r2
      | _ => false
    else false

/-- UTF-8 validity of a byte list (fuel = length always suffices, as
    every recursive call strictly shortens the list). -/
def utf8Valid (l : List Nat) : Bool :=
  utf8ValidFuel l.length l

/-- Insn::mnemonic (src/ffi.rs): CStr of the fixed buffer, then
    str::from_utf8(..).ok() — some bytes when valid text, else none. -/
def Insn.mnemonic (i : Insn) : Option (List Nat) :=
  if utf8Valid (cstrBytes i.mnemonicBuf) then some (cstrBytes i.mnemonicBuf)
  else none

/-- Insn::op_str (src/ffi.rs): same as mnemonic, on the operand buffer. -/
def Insn.op_str (i : Insn) : Option (List Nat) :=
  if utf8Valid (cstrBytes i.opStrBuf) then some (cstrBytes i.opStrBuf)
  else none

/-- Reinterpret the low 64 bits of a natural as a two's-complement i64,
    as the `transmute::<&[u64; 3], &i64>` read in X86Op::data_imm does. -/
def i64OfNat (n : Nat) : Int :=
  if n % 2 ^ 64 < 2 ^ 63 then ((n % 2 ^ 64 : Nat) : Int)
  else ((n % 2 ^ 64 : Nat) : Int) - 2 ^ 64

/-- Reinterpret the low 32 bits of a natural as a two's-complement i32. -/
def i32OfNat (n : Nat) : Int :=
  if n % 2 ^ 32 < 2 ^ 31 then ((n % 2 ^ 32 : Nat) : Int)
  else ((n % 2 ^ 32 : Nat) : Int) - 2 ^ 32

/-- Instruction operand for Intel x86 (src/ffi.rs struct X86Op).  The
    type tag is kept as its raw numeric value so that every possible tag
    can be considered; the named values are X86_OP_INVALID = 0, REG = 1,
    IMM = 2, MEM = 3, FP = 4.  `data0..data2` are the three u64 payload
    words. -/
structure X86Op where
  ty : Nat
  data0 : Nat
  data1 : Nat
  data2 : Nat
  size : Nat
  avx_bcase : Nat
  avx_zero_opmask : Nat
  deriving DecidableEq

/-- Decoded operand data for x86 (src/ffi.rs enum X86OpData). -/
inductive X86OpData where
  | Imm (v : Int)
  | Other
  deriving DecidableEq

/-- X86Op::data_imm: read the first payload word as an i64. -/
def X86Op.data_imm (op : X86Op) : Int :=
  i64OfNat op.data0

/-- X86Op::data (src/ffi.rs): only the IMM tag (2) reads the payload;
    every other tag value decodes to Other. -/
def X86Op.data (op : X86Op) : X86OpData :=
  if op.ty = 2 then X86OpData.Imm op.data_imm else X86OpData.Other

/-- Instruction operand for PowerPC (src/ffi.rs struct PPCOp).  Named
    tags: PPC_OP_INVALID = 0, REG = 1, IMM = 2, MEM = 3.  `data0..data2`
    are the three u32 payload words. -/
structure PPCOp where
  ty : Nat
  data0 : Nat
  data1 : Nat
  data2 : Nat
  deriving DecidableEq

/-- Decoded operand data for PowerPC (src/ffi.rs enum PPCOpData). -/
inductive PPCOpData where
  | Imm (v : Nat)
  | Other
  deriving DecidableEq

/-- PPCOp::data_imm: read the first payload word as a u32. -/
def PPCOp.data_imm (op : PPCOp) : Nat :=
  op.data0 % 2 ^ 32

/-- PPCOp::data (src/ffi.rs): only the IMM tag (2) reads the payload;
    every other tag value decodes to Other. -/
def PPCOp.data (op : PPCOp) : PPCOpData :=
  if op.ty = 2 then PPCOpData.Imm op.data_imm else PPCOpData.Other

/-- ARM memory operand (src/ffi.rs struct ARMOpMem): base and index
    register ids (u32), scale and displacement (i32). -/
structure ARMOpMem where
  base : Nat
  index : Nat
  scale : Int
  disp : Int
  deriving DecidableEq

/-- Instruction operand for ARM (src/ffi.rs struct ARMOp).  Named tags:
    ARM_OP_INVALID = 0, REG = 1, IMM = 2, MEM = 3, FP = 4, CIMM = 64,
    PIMM = 65, SETEND = 66, SYSREG = 67.  `data0`/`data1` are the two
    u64 payload words. -/
structure ARMOp where
  vector_index : Int
  shift_type : Nat
  shift_value : Nat
  ty : Nat
  data0 : Nat
  data1 : Nat
  subtracted : Bool
  deriving DecidableEq

/-- Decoded operand data for ARM (src/ffi.rs enum ARMOpData).  Register
    and system-register ids are kept as their numeric values. -/
inductive ARMOpData where
  | Imm (v : Nat)
  | Reg (r : Nat)
  | Sysreg (r : Nat)
  | Mem (m : ARMOpMem)
  | Other
  deriving DecidableEq

/-- ARMOp::data_raw: read the low u32 of the payload. -/
def ARMOp.data_raw (op : ARMOp) : Nat :=
  op.data0 % 2 ^ 32

/-- The `transmute(self.data)` read of ARMOp::data for the MEM tag:
    the 16 payload bytes as {base: u32, index: u32, scale: i32, disp: i32}
    in little-endian field order. -/
def armMemOfRaw (d0 d1 : Nat) : ARMOpMem :=
  { base := d0 % 2 ^ 32
    index := d0 / 2 ^ 32 % 2 ^ 32
    scale := i32OfNat d1
    disp := i32OfNat (d1 / 2 ^ 32) }

/-- ARMOp::data (src/ffi.rs): IMM (2), REG (1), SYSREG (67), MEM (3),
    PIMM (65) and CIMM (64) read the payload under their layouts; every
    other tag value decodes to Other. -/
def ARMOp.data (op : ARMOp) : ARMOpData :=
  if op.ty = 2 then ARMOpData.Imm op.data_raw
  else if op.ty = 1 then ARMOpData.Reg op.data_raw
  else if op.ty = 67 then ARMOpData.Sysreg op.data_raw
  else if op.ty = 3 then ARMOpData.Mem (armMemOfRaw op.data0 op.data1)
  else if op.ty = 65 then ARMOpData.Imm op.data_raw
  else if op.ty = 64 then ARMOpData.Imm op.data_raw
  else ARMOpData.Other

/-- Platform-specific instruction detail for x86 (src/ffi.rs struct
    X86Detail).  `pfx` is the 4-byte legacy-prefix area. -/
structure X86Detail where
  pfx : List Nat
  opcode : List Nat
  rex : Nat
  addr_size : Nat
  modrm : Nat
  sib : Nat
  disp : Nat
  sib_index : Nat
  sib_scale : Nat
  sib_base : Nat
  sse_cc : Nat
  avx_cc : Nat
  avx_sae : Nat
  avx_rm : Nat
  op_count : Nat
  operandsArr : List X86Op
  deriving DecidableEq

/-- X86Detail::operands (src/ffi.rs): `&self.operands[0..self.op_count]`. -/
def X86Detail.operands (d : X86Detail) : Option (List X86Op) :=
  rustSliceTo d.operandsArr d.op_count

/-- Platform-specific instruction detail for ARM (src/ffi.rs struct
    ARMDetail). -/
structure ARMDetail where
  usermode : Bool
  vector_size : Int
  vector_data : Nat
  cps_mode : Nat
  cps_flag : Nat
  cc : Nat
  update_flags : Bool
  writeback : Bool
  mem_barrier : Nat
  op_count : Nat
  operandsArr : List ARMOp
  deriving DecidableEq

/-- ARMDetail::operands (src/ffi.rs): `&self.operands[0..self.op_count]`. -/
def ARMDetail.operands (d : ARMDetail) : Option (List ARMOp) :=
  rustSliceTo d.operandsArr d.op_count

/-- Abstract decoding-engine oracle standing for one opened libcapstone
    instance.  `step` is cs_disasm_iter's engine side: from the current
    byte cursor and address, either decode one instruction and advance
    the cursor, or signal failure (end of input / undecodable bytes).
    `errno` is the per-handle last-error slot read by cs_errno after a
    failed batch call. -/
structure Engine where
  step : List Nat → Nat → Option (Insn × List Nat × Nat)
  errno : CsErr

/-- cs_disasm_iter: one single-step decode call into the reusable slot. -/
def cs_disasm_iter (e : Engine) (code : List Nat) (addr : Nat) :
    Option (Insn × List Nat × Nat) :=
  e.step code addr

/-- The engine's internal decode loop backing cs_disasm: decode records
    until the input is exhausted or a step fails.  An explicit fuel of
    `code.length + 1` bounds the loop; it never runs out when each
    successful step consumes at least one input byte. -/
def decodeLoop (e : Engine) : Nat → List Nat → Nat → List Insn
  | 0, _, _ => []
  | fuel + 1, code, addr =>
    match e.step code addr with
    | none => []
    | some (i, code2, addr2) => i :: decodeLoop e fuel code2 addr2

/-- cs_disasm: batch decode.  `count = 0` requests an unbounded decode;
    `count > 0` caps the number of records.  The returned list is the
    engine-allocated array; its length is the call's return value. -/
def cs_disasm (e : Engine) (code : List Nat) (addr : Nat) (count : Nat) :
    List Insn :=
  let all := decodeLoop e (code.length + 1) code addr
  if count = 0 then all else all.take count

/-- Owned batch buffer from src/handle.rs (struct Instructions): the
    engine-allocated array contents together with the element count the
    wrapper recorded at construction. -/
structure Instructions where
  arr : List Insn
  count : Nat
  deriving DecidableEq

/-- Instructions::from_parts (src/handle.rs). -/
def Instructions.from_parts (a : List Insn) (c : Nat) : Instructions :=
  { arr := a, count := c }

/-- Instructions::as_slice (src/handle.rs):
    `slice::from_raw_parts(self.ptr, self.count)` — reads `count`
    elements from the allocation; `none` models the out-of-bounds read
    when the recorded count exceeds the allocation's element count. -/
def Instructions.as_slice (b : Instructions) : Option (List Insn) :=
  if b.count ≤ b.arr.length then some (b.arr.take b.count) else none

/-- Handle::disasm (src/handle.rs): call cs_disasm; a zero return value
    is a failure reported through cs_errno; on success the buffer is
    built with `Instructions::from_parts(ptr, count as usize)` — the
    caller-requested count, exactly as in the source. -/
def Handle.disasm (e : Engine) (code : List Nat) (addr : Nat) (count : Nat) :
    Except CsErr Instructions :=
  let insns := cs_disasm e code addr count
  if insns.length = 0 then Except.error e.errno
  else Except.ok (Instructions.from_parts insns count)

/-- The wrapper-side while loop of Handle::walk_insts: repeatedly invoke
    cs_disasm_iter and visit each decoded record, stopping at the first
    failed step.  Same fuel convention as `decodeLoop`. -/
def walkLoop (e : Engine) : Nat → List Nat → Nat → List Insn
  | 0, _, _ => []
  | fuel + 1, code, addr =>
    match cs_disasm_iter e code addr with
    | none => []
    | some (i, code2, addr2) => i :: walkLoop e fuel code2 addr2

/-- Handle::walk_insts (src/handle.rs): returns the sequence of records
    the callback observes (in order) and the call's result, which is
    `Ok(())` on the normal end-of-input termination. -/
def Handle.walk_insts (e : Engine) (code : List Nat) (addr : Nat) :
    List Insn × Except CsErr Unit :=
  (walkLoop e (code.length + 1) code addr, Except.ok ())

/-- Owned batch buffer from src/instruction.rs (struct Instructions,
    the Capstone::disasm variant): array contents plus stored length.
    The stored isize length is nonnegative here (it is the size_t
    return value of cs_disasm), so it is carried as a Nat. -/
structure instruction.Instructions where
  arr : List Insn
  len : Nat
  deriving DecidableEq

/-- Instructions::from_raw_parts (src/instruction.rs). -/
def instruction.Instructions.from_raw_parts (a : List Insn) (l : Nat) :
    instruction.Instructions :=
  { arr := a, len := l }

/-- The record sequence produced by InstructionIterator
    (src/instruction.rs): offsets 0..len read from the array; `none`
    models the out-of-bounds reads when len exceeds the allocation. -/
def instruction.Instructions.iter (b : instruction.Instructions) :
    Option (List Insn) :=
  if b.len ≤ b.arr.length then some (b.arr.take b.len) else none

/-- Capstone::disasm (src/capstone.rs): call cs_disasm; zero decoded
    instructions yields None (cs_errno is queried but its value is
    discarded); on success the buffer stores the engine's return value
    `insn_count` as its length. -/
def Capstone.disasm (e : Engine) (code : List Nat) (addr : Nat)
    (count : Nat) : Option instruction.Instructions :=
  let insns := cs_disasm e code addr count
  if insns.length = 0 then none
  else some (instruction.Instructions.from_raw_parts insns insns.length)

/-- Capstone::walk_insts (src/capstone.rs): identical protocol to
    Handle::walk_insts. -/
def Capstone.walk_insts (e : Engine) (code : List Nat) (addr : Nat) :
    List Insn × Except CsErr Unit :=
  (walkLoop e (code.length + 1) code addr, Except.ok ())

/-- Resource/FFI events, for stating exactly-once release properties. -/
inductive Ev where
  | openEv (arch : Nat) (mode : Nat)
  | closeEv (h : Nat)
  | optEv (h : Nat) (opt : Nat) (val : Nat)
  | mallocEv
  | visitEv (i : Insn)
  | freeSlotEv (count : Nat)
  | freeArrEv (count : Nat)
  deriving DecidableEq

/-- Whether an event is a cs_close call. -/
def isCloseEv : Ev → Bool
  | Ev.closeEv _ => true
  | _ => false

/-- Whether an event is a cs_option call. -/
def isOptEv : Ev → Bool
  | Ev.optEv _ _ _ => true
  | _ => false

/-- Whether an event is a cs_malloc call. -/
def isMallocEv : Ev → Bool
  | Ev.mallocEv => true
  | _ => false

/-- Whether an event is a cs_free call on the streaming slot. -/
def isFreeSlotEv : Ev → Bool
  | Ev.freeSlotEv _ => true
  | _ => false

/-- Drop for Handle (src/handle.rs): one cs_close call on the handle. -/
def Handle.dropTrace (h : Nat) : List Ev :=
  [Ev.closeEv h]

/-- Drop for Instructions (src/handle.rs): one cs_free call with the
    element count recorded at construction. -/
def Instructions.dropTrace (b : Instructions) : List Ev :=
  [Ev.freeArrEv b.count]

/-- Drop for Capstone (src/capstone.rs): one cs_close call. -/
def Capstone.dropTrace (h : Nat) : List Ev :=
  [Ev.closeEv h]

/-- The event sequence of the walk loop: one visit per successful step. -/
def walkEvLoop (e : Engine) : Nat → List Nat → Nat → List Ev
  | 0, _, _ => []
  | fuel + 1, code, addr =>
    match cs_disasm_iter e code addr with
    | none => []
    | some (i, code2, addr2) => Ev.visitEv i :: walkEvLoop e fuel code2 addr2

/-- FFI event trace of Handle::walk_insts: cs_malloc for the single
    slot, the visit loop, then cs_free(insn, 1) after the loop ends. -/
def Handle.walk_insts_trace (e : Engine) (code : List Nat) (addr : Nat) :
    List Ev :=
  Ev.mallocEv :: (walkEvLoop e (code.length + 1) code addr ++ [Ev.freeSlotEv 1])

/-- CS_OPT_DETAIL's numeric value (src/ffi.rs enum CsOptType). -/
def CS_OPT_DETAIL : Nat := 2

/-- CS_OPT_SKIPDATA's numeric value (src/ffi.rs enum CsOptType). -/
def CS_OPT_SKIPDATA : Nat := 5

/-- CS_OPT_ON's numeric value (src/ffi.rs mod optval). -/
def CS_OPT_ON : Nat := 3

/-- CS_OPT_OFF's numeric value (src/ffi.rs mod optval). -/
def CS_OPT_OFF : Nat := 0

/-- Oracle for the engine-lifecycle calls: cs_open's status and returned
    handle for an architecture/mode pair, and cs_option's status per
    (handle, option kind, value). -/
structure OpenEngine where
  openStatus : Nat → Nat → CsErr
  openHandle : Nat → Nat → Nat
  optRes : Nat → Nat → Nat → CsErr

/-- ffi::new_csh (src/ffi.rs): cs_open, then Ok(handle) exactly when the
    status is CS_ERR_OK. -/
def new_csh (e : OpenEngine) (arch mode : Nat) : Except CsErr Nat :=
  if e.openStatus arch mode = CsErr.CS_ERR_OK then
    Except.ok (e.openHandle arch mode)
  else Except.error (e.openStatus arch mode)

/-- ffi::set_opt (src/ffi.rs): cs_option, mapping CS_ERR_OK to Ok(())
    and any other status to Err(status). -/
def set_opt (e : OpenEngine) (h opt val : Nat) : Except CsErr Unit :=
  if e.optRes h opt val = CsErr.CS_ERR_OK then Except.ok ()
  else Except.error (e.optRes h opt val)

/-- Builder state from src/handle.rs (struct HandleBuilder). -/
structure HandleBuilder where
  arch : Nat
  mode : Nat
  detail : Bool
  skipdata : Bool
  deriving DecidableEq

/-- HandleBuilder::new (src/handle.rs): both options default to off. -/
def HandleBuilder.new (arch mode : Nat) : HandleBuilder :=
  { arch := arch, mode := mode, detail := false, skipdata := false }

/-- HandleBuilder::build (src/handle.rs): open the engine, then set
    CS_OPT_DETAIL and CS_OPT_SKIPDATA in that order, each ON exactly
    when the builder flag is set.  `try!` propagates the first failure;
    on the failing paths the already-opened handle goes out of scope and
    its Drop issues the cs_close, recorded in the trace.  Returns the
    FFI event trace together with the call's result. -/
def HandleBuilder.build (e : OpenEngine) (b : HandleBuilder) :
    List Ev × Except CsErr Nat :=
  match new_csh e b.arch b.mode with
  | Except.error err => ([Ev.openEv b.arch b.mode], Except.error err)
  | Except.ok h =>
    let v1 := if b.detail then CS_OPT_ON else CS_OPT_OFF
    match set_opt e h CS_OPT_DETAIL v1 with
    | Except.error err =>
      ([Ev.openEv b.arch b.mode, Ev.optEv h CS_OPT_DETAIL v1, Ev.closeEv h],
       Except.error err)
    | Except.ok _ =>
      let v2 := if b.skipdata then CS_OPT_ON else CS_OPT_OFF
      match set_opt e h CS_OPT_SKIPDATA v2 with
      | Except.error err =>
        ([Ev.openEv b.arch b.mode, Ev.optEv h CS_OPT_DETAIL v1,
          Ev.optEv h CS_OPT_SKIPDATA v2, Ev.closeEv h], Except.error err)
      | Except.ok _ =>
        ([Ev.openEv b.arch b.mode, Ev.optEv h CS_OPT_DETAIL v1,
          Ev.optEv h CS_OPT_SKIPDATA v2], Except.ok h)

/-- The crate's own test input (src/lib.rs test_x86_simple):
    bytes 55 48 8b 05 b8 13 00 00, x86-64, base address 0x1000. -/
def CODE : List Nat :=
  [0x55, 0x48, 0x8b, 0x05, 0xb8, 0x13, 0x00, 0x00]

/-- The first record the engine decodes from CODE: push rbp at 0x1000,
    one byte.  Mnemonic buffer holds the NUL-terminated text "push". -/
def insnPush : Insn :=
  { id := 1
    address := 0x1000
    size := 1
    bytes := [0x55]
    mnemonicBuf := [112, 117, 115, 104, 0]
    opStrBuf := [114, 98, 112, 0]
    detail_ptr := none }

/-- The second record the engine decodes from CODE: mov at 0x1001,
    seven bytes.  Mnemonic buffer holds the NUL-terminated text "mov". -/
def insnMov : Insn :=
  { id := 2
    address := 0x1001
    size := 7
    bytes := [0x48, 0x8b, 0x05, 0xb8, 0x13, 0x00, 0x00]
    mnemonicBuf := [109, 111, 118, 0]
    opStrBuf := [114, 97, 120, 0]
    detail_ptr := none }

/-- Concrete decoding engine matching the crate's test scenario: CODE
    decodes to the push record then the mov record, in two steps. -/
def engX86 : Engine :=
  { step := fun code addr =>
      if code = CODE then
        some (insnPush, [0x48, 0x8b, 0x05, 0xb8, 0x13, 0x00, 0x00], addr + 1)
      else if code = [0x48, 0x8b, 0x05, 0xb8, 0x13, 0x00, 0x00] then
        some (insnMov, [], addr + 7)
      else none
    errno := CsErr.CS_ERR_OK }

/-- Engine that decodes nothing and reports out-of-memory. -/
def engFailMem : Engine :=
  { step := fun _ _ => none, errno := CsErr.CS_ERR_MEM }

/-- Engine that decodes nothing and reports an architecture error. -/
def engFailArch : Engine :=
  { step := fun _ _ => none, errno := CsErr.CS_ERR_ARCH }

/-- Lifecycle oracle on which cs_open succeeds (handle 7) but every
    CS_OPT_DETAIL option call fails with CS_ERR_OPTION. -/
def engOptFail : OpenEngine :=
  { openStatus := fun _ _ => CsErr.CS_ERR_OK
    openHandle := fun _ _ => 7
    optRes := fun _ opt _ =>
      if opt = CS_OPT_DETAIL then CsErr.CS_ERR_OPTION else CsErr.CS_ERR_OK }

/-- Lifecycle oracle on which every call succeeds (handle 9). -/
def engAllOk : OpenEngine :=
  { openStatus := fun _ _ => CsErr.CS_ERR_OK
    openHandle := fun _ _ => 9
    optRes := fun _ _ _ => CsErr.CS_ERR_OK }

/-- x86 operand carrying a tag value not modeled by name. -/
def x86opUnknown : X86Op :=
  { ty := 99, data0 := 5, data1 := 0, data2 := 0, size := 0,
    avx_bcase := 0, avx_zero_opmask := 0 }

/-- All-zero x86 operand (X86_OP_INVALID). -/
def x86op0 : X86Op :=
  { ty := 0, data0 := 0, data1 := 0, data2 := 0, size := 0,
    avx_bcase := 0, avx_zero_opmask := 0 }

/-- PowerPC operand carrying a tag value not modeled by name. -/
def ppcopUnknown : PPCOp :=
  { ty := 77, data0 := 5, data1 := 0, data2 := 0 }

/-- ARM operand carrying a tag value not modeled by name. -/
def armopUnknown : ARMOp :=
  { vector_index := 0, shift_type := 0, shift_value := 0, ty := 99,
    data0 := 5, data1 := 0, subtracted := false }

/-- All-zero ARM operand (ARM_OP_INVALID). -/
def armop0 : ARMOp :=
  { vector_index := 0, shift_type := 0, shift_value := 0, ty := 0,
    data0 := 0, data1 := 0, subtracted := false }

/-- Record whose mnemonic buffer is not valid text and whose operand
    buffer is the valid text "mov". -/
def insnBadText : Insn :=
  { id := 3
    address := 0
    size := 1
    bytes := [0]
    mnemonicBuf := [0xFF, 0xFE, 0]
    opStrBuf := [109, 111, 118, 0]
    detail_ptr := none }

/-- Detail block with a well-formed groups array (capacity 8, count 3). -/
def detail8 : InsnDetail :=
  { regs_read := [], regs_read_count := 0, regs_write := [],
    regs_write_count := 0, groupsArr := [1, 2, 3, 0, 0, 0, 0, 0],
    groups_count := 3, arch_data := [] }

/-- x86 detail block with capacity-8 operand array and count 2. -/
def x86d : X86Detail :=
  { pfx := [0, 0, 0, 0], opcode := [0, 0, 0, 0], rex := 0, addr_size := 0,
    modrm := 0, sib := 0, disp := 0, sib_index := 0, sib_scale := 0,
    sib_base := 0, sse_cc := 0, avx_cc := 0, avx_sae := 0, avx_rm := 0,
    op_count := 2, operandsArr := List.replicate 8 x86op0 }

/-- ARM detail block whose count field (40) exceeds the capacity (36). -/
def armdOver : ARMDetail :=
  { usermode := false, vector_size := 0, vector_data := 0, cps_mode := 0,
    cps_flag := 0, cc := 0, update_flags := false, writeback := false,
    mem_barrier := 0, op_count := 40,
    operandsArr := List.replicate 36 armop0 }

/-- Builder requesting detail tracking but not skipdata. -/
def bDS : HandleBuilder :=
  { arch := 3, mode := 8, detail := true, skipdata := false }

/-- Every event the walk loop emits is a visit. -/
theorem walkEvLoop_visits (e : Engine) :
    ∀ (fuel : Nat) (code : List Nat) (addr : Nat) (ev : Ev),
      ev ∈ walkEvLoop e fuel code addr → ∃ i, ev = Ev.visitEv i := by
  intro fuel
  induction fuel with
  | zero =>
    intro code addr ev h
    simp [walkEvLoop] at h
  | succ n ih =>
    intro code addr ev h
    rw [walkEvLoop] at h
    cases hstep : cs_disasm_iter e code addr with
    | none =>
      rw [hstep] at h
      simp at h
    | some t =>
      obtain ⟨i, c2, a2⟩ := t
      rw [hstep] at h
      simp only [List.mem_cons] at h
      rcases h with h | h
      · exact ⟨i, h⟩
      · exact ih c2 a2 ev h

/-- A predicate false on visit events counts zero in the walk loop. -/
theorem walkEvLoop_countP_zero (e : Engine) (p : Ev → Bool)
    (hp : ∀ i, p (Ev.visitEv i) = false)
    (fuel : Nat) (code : List Nat) (addr : Nat) :
    (walkEvLoop e fuel code addr).countP p = 0 := by
  refine List.countP_eq_zero.mpr ?_
  intro ev hev
  obtain ⟨i, rfl⟩ := walkEvLoop_visits e fuel code addr ev hev
  simp [hp i]

/-- C1 (code evaluation at the failing input): on the crate's own test
    input the engine decodes 2 instructions, yet Handle::disasm builds
    the buffer with the caller-requested count 0, so as_slice exposes 0
    records; the sibling Capstone::disasm stores the engine's return
    value 2 as required. -/
theorem capstone_C1_count_bug :
    (cs_disasm engX86 CODE 0x1000 0).length = 2 ∧
    Handle.disasm engX86 CODE 0x1000 0 =
      Except.ok (Instructions.from_parts [insnPush, insnMov] 0) ∧
    (Instructions.from_parts [insnPush, insnMov] 0).as_slice = some [] ∧
    Capstone.disasm engX86 CODE 0x1000 0 =
      some (instruction.Instructions.from_raw_parts [insnPush, insnMov] 2) :=
  ⟨by decide, by rfl, by decide, by rfl⟩

/-- C2: the detail accessor returns Some exactly when the record's
    detail pointer is non-null and its id is nonzero; in particular an
    id-0 (skipdata) record never carries detail. -/
theorem capstone_C2_detail_iff (i : Insn) :
    (Insn.detail i).isSome ↔ i.detail_ptr.isSome ∧ i.id ≠ 0 := by
  cases hp : i.detail_ptr with
  | none => simp [Insn.detail, hp]
  | some d => by_cases hid : i.id = 0 <;> simp [Insn.detail, hp, hid]

/-- C2 witness: the biconditional at a concrete record. -/
theorem capstone_C2_witness :
    (Insn.detail insnPush).isSome ↔
      insnPush.detail_ptr.isSome ∧ insnPush.id ≠ 0 :=
  capstone_C2_detail_iff insnPush

/-- C3 counterexample: Capstone::disasm fails with None on zero decoded
    instructions, producing the identical result for engines whose
    last-error codes differ — so the claim that every batch call fails
    with the engine-reported error code is false for Capstone::disasm. -/
theorem capstone_C3_cex :
    Capstone.disasm engFailMem [] 0 0 = none ∧
    Capstone.disasm engFailArch [] 0 0 = none ∧
    engFailMem.errno ≠ engFailArch.errno :=
  ⟨rfl, rfl, by decide⟩

/-- C3 (amended): on zero decoded instructions Handle::disasm fails with
    the code obtained from cs_errno, and Capstone::disasm fails with
    None (discarding the engine-reported code); neither returns an
    empty buffer as success. -/
theorem capstone_C3_amended (e : Engine) (code : List Nat)
    (addr count : Nat) (h : (cs_disasm e code addr count).length = 0) :
    Handle.disasm e code addr count = Except.error e.errno ∧
    Capstone.disasm e code addr count = none := by
  constructor <;> simp [Handle.disasm, Capstone.disasm, h]

/-- C3 witness: the amended statement at a concrete failing engine. -/
theorem capstone_C3_witness :
    (cs_disasm engFailMem [] 0 0).length = 0 ∧
    (Handle.disasm engFailMem [] 0 0 = Except.error engFailMem.errno ∧
      Capstone.disasm engFailMem [] 0 0 = none) :=
  ⟨rfl, capstone_C3_amended engFailMem [] 0 0 rfl⟩

/-- C4: each architecture operand decoder is a total function of the
    numeric tag; any tag value outside the named enumeration decodes to
    Other, and the payload is read only under a tag that guarantees its
    layout (x86 and PPC read it only for IMM = 2; ARM only for
    REG/IMM/MEM/CIMM/PIMM/SYSREG). -/
theorem capstone_C4_tag_fallback (x : X86Op) (p : PPCOp) (a : ARMOp) :
    (x.ty ∉ ([0, 1, 2, 3, 4] : List Nat) → X86Op.data x = X86OpData.Other) ∧
    (X86Op.data x ≠ X86OpData.Other → x.ty = 2) ∧
    (p.ty ∉ ([0, 1, 2, 3] : List Nat) → PPCOp.data p = PPCOpData.Other) ∧
    (PPCOp.data p ≠ PPCOpData.Other → p.ty = 2) ∧
    (a.ty ∉ ([0, 1, 2, 3, 4, 64, 65, 66, 67] : List Nat) →
      ARMOp.data a = ARMOpData.Other) ∧
    (ARMOp.data a ≠ ARMOpData.Other →
      a.ty ∈ ([1, 2, 3, 64, 65, 67] : List Nat)) := by
  refine ⟨?_, ?_, ?_, ?_, ?_, ?_⟩
  · intro h
    have h2 : x.ty ≠ 2 := fun he => h (by simp [he])
    simp [X86Op.data, h2]
  · intro h
    by_cases h2 : x.ty = 2
    · exact h2
    · exact absurd (by simp [X86Op.data, h2]) h
  · intro h
    have h2 : p.ty ≠ 2 := fun he => h (by simp [he])
    simp [PPCOp.data, h2]
  · intro h
    by_cases h2 : p.ty = 2
    · exact h2
    · exact absurd (by simp [PPCOp.data, h2]) h
  · intro h
    simp only [List.mem_cons, List.not_mem_nil, or_false, not_or] at h
    obtain ⟨h0, h1, h2, h3, h4, h64, h65, h66, h67⟩ := h
    simp [ARMOp.data, h1, h2, h3, h64, h65, h67]
  · intro h
    by_cases e2 : a.ty = 2
    · simp [e2]
    by_cases e1 : a.ty = 1
    · simp [e1]
    by_cases e67 : a.ty = 67
    · simp [e67]
    by_cases e3 : a.ty = 3
    · simp [e3]
    by_cases e65 : a.ty = 65
    · simp [e65]
    by_cases e64 : a.ty = 64
    · simp [e64]
    exact absurd (by simp [ARMOp.data, e2, e1, e67, e3, e65, e64]) h

/-- C4 witness: unmodeled tag values decode to Other on all three
    architectures. -/
theorem capstone_C4_witness :
    X86Op.data x86opUnknown = X86OpData.Other ∧
    PPCOp.data ppcopUnknown = PPCOpData.Other ∧
    ARMOp.data armopUnknown = ARMOpData.Other :=
  ⟨(capstone_C4_tag_fallback x86opUnknown ppcopUnknown armopUnknown).1
      (by decide),
   (capstone_C4_tag_fallback x86opUnknown ppcopUnknown armopUnknown).2.2.1
      (by decide),
   (capstone_C4_tag_fallback x86opUnknown ppcopUnknown armopUnknown).2.2.2.2.1
      (by decide)⟩

/-- C5 (code evaluation at the failing input): the streaming walker
    visits both records of the test input (push at 0x1000 size 1, mov at
    0x1001 size 7), but batch disassembly of the same input with
    unbounded count yields a buffer whose exposed slice is empty, so the
    two protocols do not produce the same sequence. -/
theorem capstone_C5_walk_batch_bug :
    (Handle.walk_insts engX86 CODE 0x1000).1.map
        (fun i => (Insn.mnemonic i, i.address, i.size)) =
      [(some [112, 117, 115, 104], 0x1000, 1),
       (some [109, 111, 118], 0x1001, 7)] ∧
    Handle.disasm engX86 CODE 0x1000 0 =
      Except.ok (Instructions.from_parts [insnPush, insnMov] 0) ∧
    (Instructions.from_parts [insnPush, insnMov] 0).as_slice = some [] :=
  ⟨by decide, by rfl, by decide⟩

/-- C6: every resource the layer acquires is released exactly once —
    Handle's Drop issues exactly one cs_close; Instructions' Drop issues
    exactly one bulk cs_free with the element count recorded at
    construction; the streaming walker issues exactly one slot
    allocation and exactly one cs_free(insn, 1), the latter after every
    visit of the loop. -/
theorem capstone_C6_release_once (h : Nat) (a : List Insn) (c : Nat)
    (e : Engine) (code : List Nat) (addr : Nat) :
    (Handle.dropTrace h).countP isCloseEv = 1 ∧
    Instructions.dropTrace (Instructions.from_parts a c) = [Ev.freeArrEv c] ∧
    (Handle.walk_insts_trace e code addr).countP isMallocEv = 1 ∧
    (Handle.walk_insts_trace e code addr).countP isFreeSlotEv = 1 ∧
    ∃ pre, Handle.walk_insts_trace e code addr =
        Ev.mallocEv :: (pre ++ [Ev.freeSlotEv 1]) ∧
      ∀ ev ∈ pre, ∃ i, ev = Ev.visitEv i := by
  refine ⟨rfl, rfl, ?_, ?_, ?_⟩
  · unfold Handle.walk_insts_trace
    rw [List.countP_cons, List.countP_append,
      walkEvLoop_countP_zero e isMallocEv (fun _ => rfl)]
    rfl
  · unfold Handle.walk_insts_trace
    rw [List.countP_cons, List.countP_append,
      walkEvLoop_countP_zero e isFreeSlotEv (fun _ => rfl)]
    rfl
  · exact ⟨walkEvLoop e (code.length + 1) code addr, rfl,
      fun ev hev => walkEvLoop_visits e (code.length + 1) code addr ev hev⟩

/-- C6 witness: the statement at concrete inputs. -/
theorem capstone_C6_witness :
    (Handle.dropTrace 7).countP isCloseEv = 1 ∧
    Instructions.dropTrace (Instructions.from_parts [] 5) = [Ev.freeArrEv 5] ∧
    (Handle.walk_insts_trace engX86 CODE 0x1000).countP isMallocEv = 1 ∧
    (Handle.walk_insts_trace engX86 CODE 0x1000).countP isFreeSlotEv = 1 ∧
    ∃ pre, Handle.walk_insts_trace engX86 CODE 0x1000 =
        Ev.mallocEv :: (pre ++ [Ev.freeSlotEv 1]) ∧
      ∀ ev ∈ pre, ∃ i, ev = Ev.visitEv i :=
  capstone_C6_release_once 7 [] 5 engX86 CODE 0x1000

/-- C7: the streaming walker's result is Ok(()) for every input — the
    walk stops at the first failed single-step decode and termination at
    end of input is never reported as an error; in particular when the
    very first step fails nothing is visited. -/
theorem capstone_C7_walk_ok (e : Engine) (code : List Nat) (addr : Nat) :
    (Handle.walk_insts e code addr).2 = Except.ok () ∧
    (Capstone.walk_insts e code addr).2 = Except.ok () ∧
    (cs_disasm_iter e code addr = none →
      (Handle.walk_insts e code addr).1 = []) := by
  refine ⟨rfl, rfl, ?_⟩
  intro h
  simp [Handle.walk_insts, walkLoop, h]

/-- C7 witness: the walk over an engine that decodes nothing returns
    Ok(()) and visits nothing. -/
theorem capstone_C7_witness :
    cs_disasm_iter engFailMem [] 0 = none ∧
    (Handle.walk_insts engFailMem [] 0).1 = [] :=
  ⟨rfl, (capstone_C7_walk_ok engFailMem [] 0).2.2 rfl⟩

/-- C8: the mnemonic and operand-text accessors return the buffer's
    C-string bytes exactly when they are valid UTF-8 and None otherwise;
    both are total functions of the record. -/
theorem capstone_C8_text (i : Insn) :
    (utf8Valid (cstrBytes i.mnemonicBuf) = true →
      Insn.mnemonic i = some (cstrBytes i.mnemonicBuf)) ∧
    (utf8Valid (cstrBytes i.mnemonicBuf) = false →
      Insn.mnemonic i = none) ∧
    (utf8Valid (cstrBytes i.opStrBuf) = true →
      Insn.op_str i = some (cstrBytes i.opStrBuf)) ∧
    (utf8Valid (cstrBytes i.opStrBuf) = false →
      Insn.op_str i = none) := by
  refine ⟨?_, ?_, ?_, ?_⟩ <;> intro h <;>
    simp [Insn.mnemonic, Insn.op_str, h]

/-- C8 witness: a record with malformed mnemonic bytes yields None while
    its valid operand text is returned. -/
theorem capstone_C8_witness :
    utf8Valid (cstrBytes insnBadText.mnemonicBuf) = false ∧
    Insn.mnemonic insnBadText = none ∧
    utf8Valid (cstrBytes insnBadText.opStrBuf) = true ∧
    Insn.op_str insnBadText = some (cstrBytes insnBadText.opStrBuf) :=
  ⟨by decide, (capstone_C8_text insnBadText).2.1 (by decide),
   by decide, (capstone_C8_text insnBadText).2.2.1 (by decide)⟩

/-- C9: the count-field-bounded accessors return exactly the first
    count elements of the backing fixed array when the count is within
    capacity (8 groups, 8 x86 operands, 36 ARM operands), and panic
    (out-of-range slice, modelled none) when the count exceeds it. -/
theorem capstone_C9_bounded (d : InsnDetail) (xd : X86Detail)
    (ad : ARMDetail) (hd : d.groupsArr.length = 8)
    (hx : xd.operandsArr.length = 8) (ha : ad.operandsArr.length = 36) :
    ((d.groups_count ≤ 8 →
        InsnDetail.groups d = some (d.groupsArr.take d.groups_count)) ∧
      (8 < d.groups_count → InsnDetail.groups d = none)) ∧
    ((xd.op_count ≤ 8 →
        X86Detail.operands xd = some (xd.operandsArr.take xd.op_count)) ∧
      (8 < xd.op_count → X86Detail.operands xd = none)) ∧
    ((ad.op_count ≤ 36 →
        ARMDetail.operands ad = some (ad.operandsArr.take ad.op_count)) ∧
      (36 < ad.op_count → ARMDetail.operands ad = none)) := by
  refine ⟨⟨?_, ?_⟩, ⟨?_, ?_⟩, ⟨?_, ?_⟩⟩ <;> intro hc
  · unfold InsnDetail.groups rustSliceTo
    rw [hd, if_pos hc]
  · unfold InsnDetail.groups rustSliceTo
    rw [hd, if_neg (by omega)]
  · unfold X86Detail.operands rustSliceTo
    rw [hx, if_pos hc]
  · unfold X86Detail.operands rustSliceTo
    rw [hx, if_neg (by omega)]
  · unfold ARMDetail.operands rustSliceTo
    rw [ha, if_pos hc]
  · unfold ARMDetail.operands rustSliceTo
    rw [ha, if_neg (by omega)]

/-- C9 witness: a groups array of capacity 8 with count 3 yields its
    first three entries; an x86 operand array with count 2 yields two
    operands; an ARM count of 40 over capacity 36 panics. -/
theorem capstone_C9_witness :
    InsnDetail.groups detail8 = some [1, 2, 3] ∧
    X86Detail.operands x86d = some [x86op0, x86op0] ∧
    ARMDetail.operands armdOver = none := by
  have h := capstone_C9_bounded detail8 x86d armdOver
    (by decide) (by decide) (by decide)
  exact ⟨(h.1.1 (by decide)).trans (by decide),
    (h.2.1.1 (by decide)).trans (by decide),
    h.2.2.2 (by decide)⟩

/-- C10 counterexample: on an oracle where cs_open succeeds but the
    CS_OPT_DETAIL call fails, build issues only one option call after a
    successful open — not always exactly two. -/
theorem capstone_C10_cex :
    new_csh engOptFail 3 8 = Except.ok 7 ∧
    (HandleBuilder.build engOptFail (HandleBuilder.new 3 8)).1.countP
        isOptEv = 1 :=
  ⟨rfl, by decide⟩

/-- C10 (amended): after a successful open, build issues the
    CS_OPT_DETAIL call first and the CS_OPT_SKIPDATA call only if the
    first succeeded, each ON exactly when the builder flag was set; if
    the CS_OPT_DETAIL call fails, build returns exactly that status as
    its error and the opened handle is closed exactly once; if it
    succeeds and the CS_OPT_SKIPDATA call fails, build returns exactly
    that status and the handle is closed exactly once; and when both
    succeed, build returns the handle and no close is issued. -/
theorem capstone_C10_amended (e : OpenEngine) (b : HandleBuilder) (h : Nat)
    (hopen : new_csh e b.arch b.mode = Except.ok h) :
    ((HandleBuilder.build e b).1.filter isOptEv =
      if e.optRes h CS_OPT_DETAIL (if b.detail then CS_OPT_ON else CS_OPT_OFF)
          = CsErr.CS_ERR_OK then
        [Ev.optEv h CS_OPT_DETAIL (if b.detail then CS_OPT_ON else CS_OPT_OFF),
         Ev.optEv h CS_OPT_SKIPDATA
           (if b.skipdata then CS_OPT_ON else CS_OPT_OFF)]
      else
        [Ev.optEv h CS_OPT_DETAIL
          (if b.detail then CS_OPT_ON else CS_OPT_OFF)]) ∧
    (e.optRes h CS_OPT_DETAIL (if b.detail then CS_OPT_ON else CS_OPT_OFF)
        ≠ CsErr.CS_ERR_OK →
      (HandleBuilder.build e b).2 =
        Except.error (e.optRes h CS_OPT_DETAIL
          (if b.detail then CS_OPT_ON else CS_OPT_OFF)) ∧
      (HandleBuilder.build e b).1.countP isCloseEv = 1) ∧
    (e.optRes h CS_OPT_DETAIL (if b.detail then CS_OPT_ON else CS_OPT_OFF)
        = CsErr.CS_ERR_OK →
      e.optRes h CS_OPT_SKIPDATA (if b.skipdata then CS_OPT_ON else CS_OPT_OFF)
        ≠ CsErr.CS_ERR_OK →
      (HandleBuilder.build e b).2 =
        Except.error (e.optRes h CS_OPT_SKIPDATA
          (if b.skipdata then CS_OPT_ON else CS_OPT_OFF)) ∧
      (HandleBuilder.build e b).1.countP isCloseEv = 1) ∧
    (e.optRes h CS_OPT_DETAIL (if b.detail then CS_OPT_ON else CS_OPT_OFF)
        = CsErr.CS_ERR_OK →
      e.optRes h CS_OPT_SKIPDATA (if b.skipdata then CS_OPT_ON else CS_OPT_OFF)
        = CsErr.CS_ERR_OK →
      (HandleBuilder.build e b).2 = Except.ok h ∧
      (HandleBuilder.build e b).1.countP isCloseEv = 0) := by
  by_cases h1 : e.optRes h CS_OPT_DETAIL
      (if b.detail then CS_OPT_ON else CS_OPT_OFF) = CsErr.CS_ERR_OK
  · by_cases h2 : e.optRes h CS_OPT_SKIPDATA
        (if b.skipdata then CS_OPT_ON else CS_OPT_OFF) = CsErr.CS_ERR_OK
    · refine ⟨?_, ?_, ?_, ?_⟩ <;>
        simp [HandleBuilder.build, set_opt, hopen, h1, h2, isOptEv,
          isCloseEv, List.filter, List.countP, List.countP.go]
    · refine ⟨?_, ?_, ?_, ?_⟩ <;>
        simp [HandleBuilder.build, set_opt, hopen, h1, h2, isOptEv,
          isCloseEv, List.filter, List.countP, List.countP.go]
  · refine ⟨?_, ?_, ?_, ?_⟩ <;>
      simp [HandleBuilder.build, set_opt, hopen, h1, isOptEv,
        isCloseEv, List.filter, List.countP, List.countP.go]

/-- C10 witness: both branches of the amended statement at concrete
    oracles — on engOptFail the CS_OPT_DETAIL call fails, build returns
    exactly that status (CS_ERR_OPTION) and closes the opened handle
    exactly once; on engAllOk with detail requested both option calls
    are issued, DETAIL ON first then SKIPDATA OFF, build returns the
    handle and no close is issued. -/
theorem capstone_C10_witness :
    engOptFail.optRes 7 CS_OPT_DETAIL CS_OPT_OFF ≠ CsErr.CS_ERR_OK ∧
    (HandleBuilder.build engOptFail (HandleBuilder.new 3 8)).2 =
      Except.error CsErr.CS_ERR_OPTION ∧
    (HandleBuilder.build engOptFail (HandleBuilder.new 3 8)).1.countP
      isCloseEv = 1 ∧
    (HandleBuilder.build engAllOk bDS).1.filter isOptEv =
      [Ev.optEv 9 CS_OPT_DETAIL CS_OPT_ON,
       Ev.optEv 9 CS_OPT_SKIPDATA CS_OPT_OFF] ∧
    (HandleBuilder.build engAllOk bDS).2 = Except.ok 9 ∧
    (HandleBuilder.build engAllOk bDS).1.countP isCloseEv = 0 := by
  have hfail := (capstone_C10_amended engOptFail (HandleBuilder.new 3 8) 7
    rfl).2.1 (by decide)
  have hflt := (capstone_C10_amended engAllOk bDS 9 rfl).1
  have hok := (capstone_C10_amended engAllOk bDS 9 rfl).2.2.2 rfl rfl
  exact ⟨by decide, hfail.1, hfail.2, hflt.trans (by decide), hok.1, hok.2⟩
